import Mathlib

/-!
Shallow embedding of the smenuberu-api booking lifecycle and shift
check-in/check-out state machine.

Data rows mirror the Prisma entities used by the routes; each route
handler (after session resolution) is translated to a pure function
`args → DB → result × DB`, where the returned `DB` is the post-state
(equal to the input state on every error path, since the handlers
perform no writes before their last validation).

Sources:
* `src/routes/bookings.ts` — create/cancel booking, confirm-start,
  confirm-end (current TypeScript variant);
* `dist/routes/bookings.js` — historical compiled variant of create
  booking, with an interval-overlap conflict check;
* `src/routes/slots.ts` — POST /slots/:id/start (performer check-in).

Coordinates are modelled over `ℝ`; times are epoch milliseconds in `ℤ`.
-/

inductive BookingStatus where
  | booked
  | cancelled
  | checkin_requested
  | started
  | ended
  deriving DecidableEq, Repr

/-- User row: only the fields the modelled routes read. -/
structure User where
  id : String
  performerQrToken : String
  deriving DecidableEq, Repr

/-- Object (venue) row: optional coordinates, as in the Prisma schema. -/
structure GeoObject where
  id : String
  lat : Option ℝ
  lng : Option ℝ

/-- Slot row: planned date / start / end (epoch ms) and its creator. -/
structure Slot where
  id : String
  objectId : String
  date : ℤ
  startTime : ℤ
  endTime : ℤ
  createdById : String
  deriving DecidableEq, Repr

/-- Booking row, with the confirmation fields of the migration
`add_qr_and_shift_confirmation`. -/
structure Booking where
  id : ℕ
  userId : String
  slotId : String
  status : BookingStatus
  createdAt : ℤ
  startsAt : Option ℤ
  endsAt : Option ℤ
  startConfirmedAt : Option ℤ
  startConfirmedById : Option String
  startLat : Option ℝ
  startLng : Option ℝ
  endConfirmedAt : Option ℤ
  endConfirmedById : Option String
  endLat : Option ℝ
  endLng : Option ℝ

/-- UserGeoPing row: append-only timestamped coordinate sample. -/
structure GeoPing where
  userId : String
  lat : ℝ
  lng : ℝ
  createdAt : ℤ

/-- Error reply: HTTP status, `error` string, optional `distanceM`. -/
structure ApiError where
  code : ℕ
  error : String
  distanceM : Option ℤ
  deriving DecidableEq, Repr

/-- The relational store visible to the modelled routes. -/
structure DB where
  users : List User
  objects : List GeoObject
  slots : List Slot
  bookings : List Booking
  pings : List GeoPing
  nextBookingId : ℕ

/-- `prisma.slot.findUnique (where id)`. -/
def findSlot (db : DB) (slotId : String) : Option Slot :=
  db.slots.find? (fun s => decide (s.id = slotId))

/-- `prisma.user.findUnique (where performerQrToken)`. -/
def findUserByQrToken (db : DB) (qrToken : String) : Option User :=
  db.users.find? (fun u => decide (u.performerQrToken = qrToken))

/-- Coordinates of `slot.object` (`?? null` when absent). -/
def objectCoords (db : DB) (objectId : String) : Option ℝ × Option ℝ :=
  match db.objects.find? (fun o => decide (o.id = objectId)) with
  | some o => (o.lat, o.lng)
  | none => (none, none)

/-- `prisma.booking.update (where id)`: rewrite the row(s) with that id. -/
def setBooking (bs : List Booking) (bid : ℕ) (f : Booking → Booking) : List Booking :=
  bs.map (fun b => if b.id = bid then f b else b)

/-- `PING_MAX_AGE_MS = 2 * 60 * 1000` (freshness window, ms). -/
def PING_MAX_AGE_MS : ℤ := 2 * 60 * 1000

/-- Pings of `userId` with `createdAt ≥ now − PING_MAX_AGE_MS` (the
`gte` filter of the `userGeoPing.findFirst` query). -/
def freshPings (db : DB) (userId : String) (now : ℤ) : List GeoPing :=
  db.pings.filter (fun p =>
    decide (p.userId = userId) && decide (now - PING_MAX_AGE_MS ≤ p.createdAt))

/-- Keep the later of an accumulated ping and the next ping (ties keep
the earlier list entry). -/
def pickLater (acc : Option GeoPing) (p : GeoPing) : Option GeoPing :=
  match acc with
  | none => some p
  | some q => if q.createdAt < p.createdAt then some p else some q

/-- `findFirst (orderBy createdAt desc)` over the fresh pings: the
first ping of maximal `createdAt`. -/
def latestFreshPing (db : DB) (userId : String) (now : ℤ) : Option GeoPing :=
  (freshPings db userId now).foldl pickLater none

/-- Degrees to radians, as in `toRad`. -/
noncomputable def toRad (d : ℝ) : ℝ := d * Real.pi / 180

/-- `haversineMeters` from `routes/bookings.ts` / `routes/slots.ts`
(Earth radius 6 371 000 m), over the real-number idealisation of the
source's floating-point arithmetic. -/
noncomputable def haversineMeters (aLat aLng bLat bLng : ℝ) : ℝ :=
  let R : ℝ := 6371000
  let dLat := toRad (bLat - aLat)
  let dLng := toRad (bLng - aLng)
  let lat1 := toRad aLat
  let lat2 := toRad bLat
  let x := Real.sin (dLat / 2) ^ 2 +
    Real.cos lat1 * Real.cos lat2 * Real.sin (dLng / 2) ^ 2
  2 * R * Real.arcsin (Real.sqrt x)

/-- The 200 m geofence gate shared by confirm-start, confirm-end and
slot check-in: `some (round dist)` when the object has coordinates and
the distance exceeds 200 m (the handler then replies "too far from
object" with `distanceM`), `none` when the gate passes (no coordinates,
or within 200 m). -/
noncomputable def geoGate (pLat pLng : ℝ) (oLat oLng : Option ℝ) : Option ℤ :=
  match oLat, oLng with
  | some la, some ln =>
    if 200 < haversineMeters pLat pLng la ln then
      some (round (haversineMeters pLat pLng la ln))
    else none
  | _, _ => none

/-- A freshly inserted booking row (`prisma.booking.create` with
`status: "booked"`, `createdAt` defaulted to now). -/
def newBooking (bid : ℕ) (userId slotId : String) (now : ℤ) : Booking :=
  { id := bid, userId := userId, slotId := slotId,
    status := .booked, createdAt := now,
    startsAt := none, endsAt := none,
    startConfirmedAt := none, startConfirmedById := none,
    startLat := none, startLng := none,
    endConfirmedAt := none, endConfirmedById := none,
    endLat := none, endLng := none }

/-- Match of the `booking.findFirst` in POST /bookings (src variant):
same user, same slot, status `booked`. -/
def alreadyBookedPred (userId slotId : String) (b : Booking) : Bool :=
  decide (b.userId = userId) && decide (b.slotId = slotId) &&
    decide (b.status = BookingStatus.booked)

/-- POST /bookings (src/routes/bookings.ts): slot must exist, then the
same-slot duplicate check, then insert. -/
def createBooking (userId slotId : String) (now : ℤ) (db : DB) :
    Except ApiError Booking × DB :=
  match findSlot db slotId with
  | none => (.error ⟨404, "Slot not found", none⟩, db)
  | some _ =>
    match db.bookings.find? (alreadyBookedPred userId slotId) with
    | some _ => (.error ⟨400, "Already booked", none⟩, db)
    | none =>
      let b := newBooking db.nextBookingId userId slotId now
      (.ok b,
        { db with bookings := db.bookings ++ [b],
                  nextBookingId := db.nextBookingId + 1 })

/-- Match of the overlap `booking.findFirst` in POST /bookings
(dist/routes/bookings.js): a `booked` booking of the user whose slot has
the same `date`, `startTime < slot.endTime` and `endTime > slot.startTime`. -/
def overlapPred (db : DB) (slot : Slot) (userId : String) (b : Booking) : Bool :=
  decide (b.userId = userId) && decide (b.status = BookingStatus.booked) &&
    (match findSlot db b.slotId with
     | some s => decide (s.date = slot.date) && decide (s.startTime < slot.endTime) &&
         decide (slot.startTime < s.endTime)
     | none => false)

/-- POST /bookings (dist/routes/bookings.js variant): slot must exist,
then the time-overlap conflict check (409 "Time conflict"), then insert. -/
def createBookingJs (userId slotId : String) (now : ℤ) (db : DB) :
    Except ApiError Booking × DB :=
  match findSlot db slotId with
  | none => (.error ⟨404, "Slot not found", none⟩, db)
  | some slot =>
    match db.bookings.find? (overlapPred db slot userId) with
    | some _ => (.error ⟨409, "Time conflict", none⟩, db)
    | none =>
      let b := newBooking db.nextBookingId userId slotId now
      (.ok b,
        { db with bookings := db.bookings ++ [b],
                  nextBookingId := db.nextBookingId + 1 })

/-- The row update of POST /bookings/cancel: `status := cancelled`. -/
def cancelRow (x : Booking) : Booking :=
  { x with status := .cancelled }

/-- POST /bookings/cancel: find the active (`booked`) booking for
(user, slot), else 404; set its status to `cancelled`. -/
def cancelBooking (userId slotId : String) (db : DB) :
    Except ApiError Unit × DB :=
  match db.bookings.find? (alreadyBookedPred userId slotId) with
  | none => (.error ⟨404, "Active booking not found", none⟩, db)
  | some b =>
    (.ok (), { db with bookings := setBooking db.bookings b.id cancelRow })

/-- The row update of POST /bookings/confirm-start: status `started`,
arrival time, confirmation stamp and coordinates. -/
def startRow (now : ℤ) (seniorId : String) (pLat pLng : ℝ) (b : Booking) : Booking :=
  { b with status := .started, startsAt := some now,
           startConfirmedAt := some now, startConfirmedById := some seniorId,
           startLat := some pLat, startLng := some pLng }

/-- The row update of POST /bookings/confirm-end: status `ended`,
departure time, confirmation stamp and coordinates. -/
def endRow (now : ℤ) (seniorId : String) (pLat pLng : ℝ) (b : Booking) : Booking :=
  { b with status := .ended, endsAt := some now,
           endConfirmedAt := some now, endConfirmedById := some seniorId,
           endLat := some pLat, endLng := some pLng }

/-- The row update of POST /slots/:id/start: status `checkin_requested`. -/
def checkinRow (b : Booking) : Booking :=
  { b with status := .checkin_requested }

/-- Match of the `booking.findFirst` in POST /bookings/confirm-start:
status in [booked, checkin_requested] and `startConfirmedAt` null. -/
def confirmStartPred (slotId performerId : String) (b : Booking) : Bool :=
  decide (b.slotId = slotId) && decide (b.userId = performerId) &&
    (decide (b.status = BookingStatus.booked) ||
      decide (b.status = BookingStatus.checkin_requested)) &&
    decide (b.startConfirmedAt = none)

/-- POST /bookings/confirm-start (src/routes/bookings.ts). The booking
query selects the related slot; a dangling `slotId` behaves like the
no-match case of the join (404 "Booking not found"). -/
noncomputable def confirmStart (seniorId slotId qrToken : String) (now : ℤ) (db : DB) :
    Except ApiError Unit × DB :=
  match findUserByQrToken db qrToken with
  | none => (.error ⟨404, "Performer not found by qrToken", none⟩, db)
  | some performer =>
    match db.bookings.find? (confirmStartPred slotId performer.id) with
    | none => (.error ⟨404, "Booking not found", none⟩, db)
    | some booking =>
      match findSlot db booking.slotId with
      | none => (.error ⟨404, "Booking not found", none⟩, db)
      | some slot =>
        if slot.createdById ≠ seniorId then
          (.error ⟨403, "Only slot creator can confirm", none⟩, db)
        else if now < slot.startTime - 15 * 60 * 1000 then
          (.error ⟨400, "too early", none⟩, db)
        else
          match latestFreshPing db performer.id now with
          | none => (.error ⟨400, "no fresh geo ping from performer", none⟩, db)
          | some ping =>
            match geoGate ping.lat ping.lng (objectCoords db slot.objectId).1
                (objectCoords db slot.objectId).2 with
            | some dm => (.error ⟨400, "too far from object", some dm⟩, db)
            | none =>
              (.ok (),
                { db with bookings :=
                    setBooking db.bookings booking.id (startRow now seniorId ping.lat ping.lng) })

/-- Match of the `booking.findFirst` in POST /bookings/confirm-end:
status in [started, booked, checkin_requested] and `endConfirmedAt` null. -/
def confirmEndPred (slotId performerId : String) (b : Booking) : Bool :=
  decide (b.slotId = slotId) && decide (b.userId = performerId) &&
    (decide (b.status = BookingStatus.started) ||
      decide (b.status = BookingStatus.booked) ||
      decide (b.status = BookingStatus.checkin_requested)) &&
    decide (b.endConfirmedAt = none)

/-- POST /bookings/confirm-end (src/routes/bookings.ts). -/
noncomputable def confirmEnd (seniorId slotId qrToken : String) (now : ℤ) (db : DB) :
    Except ApiError Unit × DB :=
  match findUserByQrToken db qrToken with
  | none => (.error ⟨404, "Performer not found by qrToken", none⟩, db)
  | some performer =>
    match db.bookings.find? (confirmEndPred slotId performer.id) with
    | none => (.error ⟨404, "Booking not found", none⟩, db)
    | some booking =>
      match findSlot db booking.slotId with
      | none => (.error ⟨404, "Booking not found", none⟩, db)
      | some slot =>
        if slot.createdById ≠ seniorId then
          (.error ⟨403, "Only slot creator can confirm", none⟩, db)
        else if slot.endTime + 4 * 60 * 60 * 1000 < now then
          (.error ⟨400, "too late to confirm end", none⟩, db)
        else
          match latestFreshPing db performer.id now with
          | none => (.error ⟨400, "no fresh geo ping from performer", none⟩, db)
          | some ping =>
            match geoGate ping.lat ping.lng (objectCoords db slot.objectId).1
                (objectCoords db slot.objectId).2 with
            | some dm => (.error ⟨400, "too far from object", some dm⟩, db)
            | none =>
              (.ok (),
                { db with bookings :=
                    setBooking db.bookings booking.id (endRow now seniorId ping.lat ping.lng) })

/-- Match of the `slot.bookings.find` in POST /slots/:id/start: the
caller's booking on the slot with status `booked`. -/
def slotStartPred (slotId userId : String) (b : Booking) : Bool :=
  decide (b.slotId = slotId) && decide (b.userId = userId) &&
    decide (b.status = BookingStatus.booked)

/-- POST /slots/:id/start (src/routes/slots.ts): performer self
check-in. On success, appends a geo ping with the submitted coordinates
and sets the booking to `checkin_requested`. -/
noncomputable def slotStart (userId slotId : String) (lat lng : ℝ) (now : ℤ) (db : DB) :
    Except ApiError Unit × DB :=
  match findSlot db slotId with
  | none => (.error ⟨404, "slot not found", none⟩, db)
  | some slot =>
    match db.bookings.find? (slotStartPred slot.id userId) with
    | none => (.error ⟨403, "not your booked slot", none⟩, db)
    | some booking =>
      if now < slot.startTime - 15 * 60 * 1000 then
        (.error ⟨400, "too early", none⟩, db)
      else
        match geoGate lat lng (objectCoords db slot.objectId).1
            (objectCoords db slot.objectId).2 with
        | some dm => (.error ⟨400, "too far from object", some dm⟩, db)
        | none =>
          (.ok (),
            { db with
              pings := db.pings ++ [{ userId := userId, lat := lat, lng := lng, createdAt := now }],
              bookings := setBooking db.bookings booking.id checkinRow })

/-! ### Predicate characterisations -/

lemma alreadyBookedPred_eq_true (userId slotId : String) (b : Booking) :
    alreadyBookedPred userId slotId b = true ↔
      b.userId = userId ∧ b.slotId = slotId ∧ b.status = BookingStatus.booked := by
  simp [alreadyBookedPred, and_assoc]

lemma confirmStartPred_eq_true (slotId pid : String) (b : Booking) :
    confirmStartPred slotId pid b = true ↔
      b.slotId = slotId ∧ b.userId = pid ∧
        (b.status = BookingStatus.booked ∨ b.status = BookingStatus.checkin_requested) ∧
        b.startConfirmedAt = none := by
  simp [confirmStartPred, and_assoc]

lemma confirmEndPred_eq_true (slotId pid : String) (b : Booking) :
    confirmEndPred slotId pid b = true ↔
      b.slotId = slotId ∧ b.userId = pid ∧
        (b.status = BookingStatus.started ∨ b.status = BookingStatus.booked ∨
          b.status = BookingStatus.checkin_requested) ∧
        b.endConfirmedAt = none := by
  simp [confirmEndPred, and_assoc, or_assoc]

lemma slotStartPred_eq_true (slotId userId : String) (b : Booking) :
    slotStartPred slotId userId b = true ↔
      b.slotId = slotId ∧ b.userId = userId ∧ b.status = BookingStatus.booked := by
  simp [slotStartPred, and_assoc]

/-! ### Example rows and states used by concrete instances -/

/-- Example performer. -/
def uA : User := ⟨"u1", "qr1"⟩

/-- Example senior (slot creator). -/
def srA : User := ⟨"sr1", "qrsr"⟩

/-- Example object without coordinates. -/
def objA : GeoObject := ⟨"o1", none, none⟩

/-- Example slot: date 0, 10:00–18:00 UTC in epoch ms. -/
def slotA : Slot := ⟨"s1", "o1", 0, 36000000, 64800000, "sr1"⟩

/-- A second slot on the same day, 11:00–12:00, overlapping `slotA`. -/
def slotB : Slot := ⟨"s2", "o1", 0, 39600000, 43200000, "sr1"⟩

/-- Example booking of `uA` on `slotA`, freshly booked. -/
def bA : Booking := newBooking 0 "u1" "s1" 5

/-- Example state: performer and senior, one coordinate-less object, two
overlapping slots, one `booked` booking, one geo ping at t = 35 500 000. -/
def dbA : DB := ⟨[uA, srA], [objA], [slotA, slotB], [bA], [⟨"u1", 0, 0, 35500000⟩], 1⟩

/-! ### C4: create booking (src variant) -/

/-- C4 helper: success shape of POST /bookings. -/
lemma createBooking_success (userId slotId : String) (now : ℤ) (db : DB) (s : Slot)
    (hs : findSlot db slotId = some s)
    (hnone : ∀ b ∈ db.bookings,
      ¬(b.userId = userId ∧ b.slotId = slotId ∧ b.status = BookingStatus.booked)) :
    createBooking userId slotId now db =
      (.ok (newBooking db.nextBookingId userId slotId now),
        { db with bookings := db.bookings ++ [newBooking db.nextBookingId userId slotId now],
                  nextBookingId := db.nextBookingId + 1 }) := by
  have hfind : db.bookings.find? (alreadyBookedPred userId slotId) = none := by
    rw [List.find?_eq_none]
    intro b hb hp
    exact hnone b hb ((alreadyBookedPred_eq_true userId slotId b).mp hp)
  unfold createBooking
  rw [hs, hfind]

/-- C4. Create booking(performerId, slotId): a missing slot fails with
NotFound (404 "Slot not found"); an existing `booked` booking for the
same (performer, slot) fails with the already-booked Conflict
(400 "Already booked"); otherwise exactly one Booking row with status
`booked`, timestamped now, is inserted and nothing else changes. -/
theorem create_booking_spec (userId slotId : String) (now : ℤ) (db : DB) :
    (findSlot db slotId = none →
      createBooking userId slotId now db = (.error ⟨404, "Slot not found", none⟩, db))
    ∧ (findSlot db slotId ≠ none →
        (∃ b ∈ db.bookings,
          b.userId = userId ∧ b.slotId = slotId ∧ b.status = BookingStatus.booked) →
        createBooking userId slotId now db = (.error ⟨400, "Already booked", none⟩, db))
    ∧ (∀ s : Slot, findSlot db slotId = some s →
        (∀ b ∈ db.bookings,
          ¬(b.userId = userId ∧ b.slotId = slotId ∧ b.status = BookingStatus.booked)) →
        createBooking userId slotId now db =
          (.ok (newBooking db.nextBookingId userId slotId now),
            { db with
              bookings := db.bookings ++ [newBooking db.nextBookingId userId slotId now],
              nextBookingId := db.nextBookingId + 1 })) := by
  refine ⟨?_, ?_, ?_⟩
  · intro h
    unfold createBooking
    rw [h]
  · intro hs hex
    obtain ⟨b, hb, h1, h2, h3⟩ := hex
    obtain ⟨s, hs'⟩ := Option.ne_none_iff_exists'.mp hs
    have hfind : db.bookings.find? (alreadyBookedPred userId slotId) ≠ none := by
      intro hnone
      rw [List.find?_eq_none] at hnone
      exact hnone b hb ((alreadyBookedPred_eq_true userId slotId b).mpr ⟨h1, h2, h3⟩)
    obtain ⟨b', hb'⟩ := Option.ne_none_iff_exists'.mp hfind
    unfold createBooking
    rw [hs', hb']
  · intro s hs hnone
    exact createBooking_success userId slotId now db s hs hnone

/-- C4 witness: on `dbA`, booking slot "s2" for a second performer
inserts one `booked` row and changes nothing else. -/
theorem create_booking_spec_witness :
    createBooking "u9" "s2" 7 dbA =
      (.ok (newBooking 1 "u9" "s2" 7),
        { dbA with bookings := dbA.bookings ++ [newBooking 1 "u9" "s2" 7],
                   nextBookingId := 2 }) :=
  (create_booking_spec "u9" "s2" 7 dbA).2.2 slotB rfl (by decide)

/-! ### C5: cancel booking -/

/-- C5. Cancel booking(performerId, slotId) succeeds and sets the found
active booking's status to `cancelled` exactly when a booking with
status `booked` exists for that (performer, slot); otherwise it fails
with NotFound (404 "Active booking not found") and leaves the state
unchanged. -/
theorem cancel_booking_spec (userId slotId : String) (db : DB) :
    ((∀ b ∈ db.bookings,
        ¬(b.userId = userId ∧ b.slotId = slotId ∧ b.status = BookingStatus.booked)) →
      cancelBooking userId slotId db = (.error ⟨404, "Active booking not found", none⟩, db))
    ∧ (∀ b : Booking, db.bookings.find? (alreadyBookedPred userId slotId) = some b →
        b ∈ db.bookings ∧ b.userId = userId ∧ b.slotId = slotId ∧
          b.status = BookingStatus.booked ∧
          cancelBooking userId slotId db =
            (.ok (), { db with bookings := setBooking db.bookings b.id cancelRow }))
    ∧ ((∃ b ∈ db.bookings,
          b.userId = userId ∧ b.slotId = slotId ∧ b.status = BookingStatus.booked) →
        (cancelBooking userId slotId db).1 = .ok ()) := by
  refine ⟨?_, ?_, ?_⟩
  · intro hnone
    have hfind : db.bookings.find? (alreadyBookedPred userId slotId) = none := by
      rw [List.find?_eq_none]
      intro b hb hp
      exact hnone b hb ((alreadyBookedPred_eq_true userId slotId b).mp hp)
    unfold cancelBooking
    rw [hfind]
  · intro b hb
    have hmem := List.mem_of_find?_eq_some hb
    have hp := (alreadyBookedPred_eq_true userId slotId b).mp (List.find?_some hb)
    refine ⟨hmem, hp.1, hp.2.1, hp.2.2, ?_⟩
    unfold cancelBooking
    rw [hb]
  · intro hex
    obtain ⟨b, hb, h1, h2, h3⟩ := hex
    have hfind : db.bookings.find? (alreadyBookedPred userId slotId) ≠ none := by
      intro hnone
      rw [List.find?_eq_none] at hnone
      exact hnone b hb ((alreadyBookedPred_eq_true userId slotId b).mpr ⟨h1, h2, h3⟩)
    obtain ⟨b', hb'⟩ := Option.ne_none_iff_exists'.mp hfind
    unfold cancelBooking
    rw [hb']

/-- C5 witness: on `dbA`, the first cancel succeeds and cancels the
booking; cancelling again fails with NotFound and changes nothing. -/
theorem cancel_booking_spec_witness :
    cancelBooking "u1" "s1" dbA =
      (.ok (), { dbA with bookings := setBooking dbA.bookings 0 cancelRow })
    ∧ cancelBooking "u1" "s1" { dbA with bookings := setBooking dbA.bookings 0 cancelRow } =
        (.error ⟨404, "Active booking not found", none⟩,
          { dbA with bookings := setBooking dbA.bookings 0 cancelRow }) :=
  ⟨((cancel_booking_spec "u1" "s1" dbA).2.1 bA rfl).2.2.2.2,
   (cancel_booking_spec "u1" "s1"
      { dbA with bookings := setBooking dbA.bookings 0 cancelRow }).1 (by decide)⟩

/-! ### C1: overlap conflict (dist variant) -/

/-- A slot whose planned interval lies within the day of its `date`
field, with `date` a day-aligned epoch instant (as produced by
POST /slots, which builds `date`, `startTime` and `endTime` from one
calendar day with in-range hours and minutes). -/
def SlotDayBounded (s : Slot) : Prop :=
  (86400000 : ℤ) ∣ s.date ∧
    s.date ≤ s.startTime ∧ s.startTime ≤ s.date + 86400000 ∧
    s.date ≤ s.endTime ∧ s.endTime ≤ s.date + 86400000

instance (s : Slot) : Decidable (SlotDayBounded s) := by
  unfold SlotDayBounded; infer_instance

/-- Two day-bounded slots with overlapping intervals lie on the same day. -/
lemma dates_eq_of_overlap (a b : Slot) (ha : SlotDayBounded a) (hb : SlotDayBounded b)
    (h1 : a.startTime < b.endTime) (h2 : b.startTime < a.endTime) : a.date = b.date := by
  by_contra hne
  have hdvd : (86400000 : ℤ) ∣ (a.date - b.date) := dvd_sub ha.1 hb.1
  have habs : (86400000 : ℤ) ≤ |a.date - b.date| :=
    Int.le_of_dvd (abs_pos.mpr (sub_ne_zero.mpr hne)) ((dvd_abs _ _).mpr hdvd)
  obtain ⟨-, ha1, ha2, ha3, ha4⟩ := ha
  obtain ⟨-, hb1, hb2, hb3, hb4⟩ := hb
  rcases le_abs.mp habs with h | h
  · linarith
  · linarith

lemma overlapPred_eq_true (db : DB) (slot : Slot) (u : String) (b : Booking) :
    overlapPred db slot u b = true ↔
      b.userId = u ∧ b.status = BookingStatus.booked ∧
        ∃ s : Slot, findSlot db b.slotId = some s ∧ s.date = slot.date ∧
          s.startTime < slot.endTime ∧ slot.startTime < s.endTime := by
  cases hfs : findSlot db b.slotId with
  | none => simp [overlapPred, hfs]
  | some s => simp [overlapPred, hfs, and_assoc]

/-- C1 (amended). In the dist variant of create-booking, booking a slot
whose interval overlaps the slot of an existing `booked` booking of the
same user fails with Conflict (409 "Time conflict"), provided both
slots are day-bounded (the overlap query also compares `date`; for
day-bounded slots equal dates follow from the overlap); and once that
existing booking is cancelled — it being the user's only `booked`
booking (up to row id) — the same create succeeds. The src variant
rejects only same-slot duplicates (see the counterexample). -/
theorem create_booking_overlap (u slotId : String) (now : ℤ) (db : DB)
    (slot : Slot) (hs : findSlot db slotId = some slot)
    (b : Booking) (hb : b ∈ db.bookings) (hbu : b.userId = u)
    (hbs : b.status = BookingStatus.booked)
    (se : Slot) (hse : findSlot db b.slotId = some se)
    (hwfe : SlotDayBounded se) (hwfn : SlotDayBounded slot)
    (hov1 : se.startTime < slot.endTime) (hov2 : slot.startTime < se.endTime) :
    (createBookingJs u slotId now db).1 = .error ⟨409, "Time conflict", none⟩
    ∧ ((∀ b2 ∈ db.bookings, b2.userId = u → b2.status = BookingStatus.booked → b2.id = b.id) →
        (cancelBooking u b.slotId db).1 = .ok ()
        ∧ (createBookingJs u slotId now (cancelBooking u b.slotId db).2).1 =
            .ok (newBooking db.nextBookingId u slotId now)) := by
  have hdate : se.date = slot.date := dates_eq_of_overlap se slot hwfe hwfn hov1 hov2
  constructor
  · have hfind : db.bookings.find? (overlapPred db slot u) ≠ none := by
      intro hnone
      rw [List.find?_eq_none] at hnone
      exact hnone b hb ((overlapPred_eq_true db slot u b).mpr
        ⟨hbu, hbs, se, hse, hdate, hov1, hov2⟩)
    obtain ⟨b', hb'⟩ := Option.ne_none_iff_exists'.mp hfind
    unfold createBookingJs
    rw [hs]
    dsimp only
    rw [hb']
  · intro huniq
    have hcb : db.bookings.find? (alreadyBookedPred u b.slotId) ≠ none := by
      intro hnone
      rw [List.find?_eq_none] at hnone
      exact hnone b hb ((alreadyBookedPred_eq_true u b.slotId b).mpr ⟨hbu, rfl, hbs⟩)
    obtain ⟨b2, hb2⟩ := Option.ne_none_iff_exists'.mp hcb
    have hp2 := (alreadyBookedPred_eq_true u b.slotId b2).mp (List.find?_some hb2)
    have hid2 : b2.id = b.id :=
      huniq b2 (List.mem_of_find?_eq_some hb2) hp2.1 hp2.2.2
    have hcancel : cancelBooking u b.slotId db =
        (.ok (), { db with bookings := setBooking db.bookings b.id cancelRow }) := by
      unfold cancelBooking
      rw [hb2]
      dsimp only
      rw [hid2]
    refine ⟨by rw [hcancel], ?_⟩
    rw [hcancel]
    dsimp only
    have hnone2 : ∀ db2 : DB,
        db2.bookings = setBooking db.bookings b.id cancelRow →
        ∀ slot2 : Slot, db2.bookings.find? (overlapPred db2 slot2 u) = none := by
      intro db2 hbk slot2
      rw [List.find?_eq_none]
      intro b'' hmem hp
      rw [hbk] at hmem
      obtain ⟨b3, hb3, hif⟩ := List.mem_map.mp hmem
      have hp' := (overlapPred_eq_true db2 slot2 u b'').mp hp
      by_cases hcase : b3.id = b.id
      · rw [if_pos hcase] at hif
        rw [← hif] at hp'
        exact absurd hp'.2.1 (by simp [cancelRow])
      · rw [if_neg hcase] at hif
        rw [← hif] at hp'
        exact hcase (huniq b3 hb3 hp'.1 hp'.2.1)
    unfold createBookingJs
    rw [show findSlot { db with bookings := setBooking db.bookings b.id cancelRow } slotId =
        some slot from hs]
    dsimp only
    rw [hnone2 _ rfl slot]

/-- C1 counterexample: in the src variant, with `bA` a `booked` booking
of "u1" on slot "s1" whose interval overlaps slot "s2", creating a
booking for "s2" succeeds instead of failing with Conflict. -/
theorem create_booking_overlap_counterexample :
    dbA.bookings = [bA] ∧ bA.userId = "u1" ∧ bA.status = BookingStatus.booked ∧
    bA.slotId = "s1" ∧ findSlot dbA "s1" = some slotA ∧ findSlot dbA "s2" = some slotB ∧
    slotA.startTime < slotB.endTime ∧ slotB.startTime < slotA.endTime ∧
    (createBooking "u1" "s2" 7 dbA).1 = .ok (newBooking 1 "u1" "s2" 7) := by
  refine ⟨rfl, rfl, rfl, rfl, rfl, rfl, by decide, by decide, rfl⟩

/-- C1 witness: the dist variant rejects the overlapping booking with
409 "Time conflict"; after cancelling the conflicting booking the same
create succeeds. -/
theorem create_booking_overlap_witness :
    (createBookingJs "u1" "s2" 7 dbA).1 = .error ⟨409, "Time conflict", none⟩
    ∧ (cancelBooking "u1" "s1" dbA).1 = .ok ()
    ∧ (createBookingJs "u1" "s2" 7 (cancelBooking "u1" "s1" dbA).2).1 =
        .ok (newBooking 1 "u1" "s2" 7) := by
  have t := create_booking_overlap "u1" "s2" 7 dbA slotB rfl bA (by simp [dbA]) rfl rfl
    slotA rfl (by decide) (by decide) (by decide) (by decide)
  exact ⟨t.1, (t.2 (by decide)).1, (t.2 (by decide)).2⟩

/-! ### C2: at-most-once start confirmation -/

/-- Success inversion for POST /bookings/confirm-start: a successful
call resolved the performer, found an eligible booking with its slot,
passed the authorisation, temporal, freshness and geofence gates, and
rewrote exactly that booking with `startRow`. -/
lemma confirmStart_ok (sr slotId qr : String) (now : ℤ) (db : DB)
    (hok : (confirmStart sr slotId qr now db).1 = .ok ()) :
    ∃ (perf : User) (b0 : Booking) (slot : Slot) (ping : GeoPing),
      findUserByQrToken db qr = some perf ∧
      db.bookings.find? (confirmStartPred slotId perf.id) = some b0 ∧
      findSlot db b0.slotId = some slot ∧
      slot.createdById = sr ∧
      slot.startTime - 15 * 60 * 1000 ≤ now ∧
      latestFreshPing db perf.id now = some ping ∧
      geoGate ping.lat ping.lng (objectCoords db slot.objectId).1
        (objectCoords db slot.objectId).2 = none ∧
      confirmStart sr slotId qr now db =
        (.ok (), { db with bookings := setBooking db.bookings b0.id (startRow now sr ping.lat ping.lng) }) := by
  unfold confirmStart at hok
  split at hok
  · simp at hok
  next perf hu =>
    split at hok
    · simp at hok
    next b0 hb0 =>
      split at hok
      · simp at hok
      next slot hslot =>
        split at hok
        · simp at hok
        next hauth =>
          split at hok
          · simp at hok
          next htime =>
            split at hok
            · simp at hok
            next ping hping =>
              split at hok
              · simp at hok
              next hgate =>
                refine ⟨perf, b0, slot, ping, hu, hb0, hslot, not_ne_iff.mp hauth,
                  not_lt.mp htime, hping, hgate, ?_⟩
                unfold confirmStart
                rw [hu]
                dsimp only
                rw [hb0]
                dsimp only
                rw [hslot]
                dsimp only
                rw [if_neg hauth, if_neg htime, hping]
                dsimp only
                rw [hgate]

/-- C2. Confirm-start only selects a booking with status `booked` or
`checkin_requested` and unset `startConfirmedAt`; a successful call
rewrites that booking to `started` with `startConfirmedAt` set, so a
second confirm-start for the same (slot, performer) — the booking being
unique up to row id — fails with NotFound (404 "Booking not found")
and changes nothing. -/
theorem confirm_start_at_most_once (sr sr2 slotId qr : String) (now now2 : ℤ) (db : DB)
    (perf : User) (hperf : findUserByQrToken db qr = some perf)
    (huniq : ∀ b1 ∈ db.bookings, ∀ b2 ∈ db.bookings,
      confirmStartPred slotId perf.id b1 = true →
      confirmStartPred slotId perf.id b2 = true → b1.id = b2.id)
    (hok : (confirmStart sr slotId qr now db).1 = .ok ()) :
    ∃ b0 ∈ db.bookings,
      (b0.status = BookingStatus.booked ∨ b0.status = BookingStatus.checkin_requested) ∧
      b0.startConfirmedAt = none ∧
      (∃ ping : GeoPing, (confirmStart sr slotId qr now db).2.bookings =
        setBooking db.bookings b0.id (startRow now sr ping.lat ping.lng)) ∧
      confirmStart sr2 slotId qr now2 (confirmStart sr slotId qr now db).2 =
        (.error ⟨404, "Booking not found", none⟩, (confirmStart sr slotId qr now db).2) := by
  obtain ⟨perf', b0, slot, ping, hu, hb0, hslot, hauth, htime, hping, hgate, heq⟩ :=
    confirmStart_ok sr slotId qr now db hok
  have hperf' : perf = perf' := by
    rw [hperf] at hu
    exact Option.some_injective _ hu
  subst hperf'
  have hpred0 := List.find?_some hb0
  have hmem0 := List.mem_of_find?_eq_some hb0
  have hst := (confirmStartPred_eq_true slotId perf.id b0).mp hpred0
  refine ⟨b0, hmem0, hst.2.2.1, hst.2.2.2, ⟨ping, by rw [heq]⟩, ?_⟩
  rw [heq]
  dsimp only
  have hnone : (setBooking db.bookings b0.id (startRow now sr ping.lat ping.lng)).find?
      (confirmStartPred slotId perf.id) = none := by
    rw [List.find?_eq_none]
    intro b'' hmem hp
    obtain ⟨b3, hb3, hif⟩ := List.mem_map.mp hmem
    by_cases hcase : b3.id = b0.id
    · rw [if_pos hcase] at hif
      have := (confirmStartPred_eq_true slotId perf.id b'').mp hp
      rw [← hif] at this
      simp [startRow] at this
    · rw [if_neg hcase] at hif
      rw [← hif] at hp
      exact hcase (huniq b3 hb3 b0 hmem0 hp hpred0)
  have hu2 : findUserByQrToken
      { db with bookings := setBooking db.bookings b0.id (startRow now sr ping.lat ping.lng) } qr =
      some perf := hperf
  unfold confirmStart
  rw [hu2]
  dsimp only
  rw [hnone]

/-- C2 witness: on `dbA`, after a successful confirm-start at
t = 35 500 000, a second confirm-start for the same slot and QR token
fails with 404 "Booking not found" and leaves the state unchanged. -/
theorem confirm_start_at_most_once_witness :
    confirmStart "x" "s1" "qr1" 99999999 (confirmStart "sr1" "s1" "qr1" 35500000 dbA).2 =
      (.error ⟨404, "Booking not found", none⟩,
        (confirmStart "sr1" "s1" "qr1" 35500000 dbA).2) := by
  obtain ⟨b0, -, -, -, -, hsecond⟩ :=
    confirm_start_at_most_once "sr1" "x" "s1" "qr1" 35500000 99999999 dbA uA rfl
      (by decide) rfl
  exact hsecond

/-! ### C6, C7: temporal gates -/

/-- C6. With the performer resolved, an eligible booking and its slot
found, and the caller authorised, confirm-start fails with
400 "too early" exactly when the current time is strictly before
`slot.startTime − 15 minutes`; at or after that instant the gate
imposes no upper bound and the call proceeds past it. -/
theorem confirm_start_window (sr slotId qr : String) (now : ℤ) (db : DB)
    (perf : User) (hperf : findUserByQrToken db qr = some perf)
    (b0 : Booking) (hb0 : db.bookings.find? (confirmStartPred slotId perf.id) = some b0)
    (slot : Slot) (hslot : findSlot db b0.slotId = some slot)
    (hauth : slot.createdById = sr) :
    now < slot.startTime - 15 * 60 * 1000 ↔
      confirmStart sr slotId qr now db = (.error ⟨400, "too early", none⟩, db) := by
  constructor
  · intro h
    unfold confirmStart
    rw [hperf]
    dsimp only
    rw [hb0]
    dsimp only
    rw [hslot]
    dsimp only
    rw [if_neg (not_ne_iff.mpr hauth), if_pos h]
  · intro h
    by_contra hnot
    unfold confirmStart at h
    rw [hperf] at h
    dsimp only at h
    rw [hb0] at h
    dsimp only at h
    rw [hslot] at h
    dsimp only at h
    rw [if_neg (not_ne_iff.mpr hauth), if_neg hnot] at h
    cases hping : latestFreshPing db perf.id now with
    | none =>
      rw [hping] at h
      simp at h
    | some ping =>
      rw [hping] at h
      dsimp only at h
      cases hgate : geoGate ping.lat ping.lng (objectCoords db slot.objectId).1
          (objectCoords db slot.objectId).2 with
      | none =>
        rw [hgate] at h
        simp at h
      | some dm =>
        rw [hgate] at h
        simp at h

/-- C6 witness: on `dbA` (slot start 36 000 000), confirm-start at
start − 16 min fails "too early"; at start − 14 min it succeeds. -/
theorem confirm_start_window_witness :
    confirmStart "sr1" "s1" "qr1" 35040000 dbA = (.error ⟨400, "too early", none⟩, dbA)
    ∧ (confirmStart "sr1" "s1" "qr1" 35160000 dbA).1 = .ok () :=
  ⟨(confirm_start_window "sr1" "s1" "qr1" 35040000 dbA uA rfl bA rfl slotA rfl rfl).mp
      (by decide),
   rfl⟩

/-- State for the confirm-end window witness: one ping shortly before
the end-confirmation call. -/
def dbC7 : DB := { dbA with pings := [⟨"u1", 0, 0, 79100000⟩] }

/-- C7. With the performer resolved, an eligible booking and its slot
found, and the caller authorised, confirm-end fails with
400 "too late to confirm end" exactly when the current time is strictly
after `slot.endTime + 4 hours`; at or before that instant the gate
imposes no lower bound and the call proceeds past it. -/
theorem confirm_end_window (sr slotId qr : String) (now : ℤ) (db : DB)
    (perf : User) (hperf : findUserByQrToken db qr = some perf)
    (b0 : Booking) (hb0 : db.bookings.find? (confirmEndPred slotId perf.id) = some b0)
    (slot : Slot) (hslot : findSlot db b0.slotId = some slot)
    (hauth : slot.createdById = sr) :
    slot.endTime + 4 * 60 * 60 * 1000 < now ↔
      confirmEnd sr slotId qr now db = (.error ⟨400, "too late to confirm end", none⟩, db) := by
  constructor
  · intro h
    unfold confirmEnd
    rw [hperf]
    dsimp only
    rw [hb0]
    dsimp only
    rw [hslot]
    dsimp only
    rw [if_neg (not_ne_iff.mpr hauth), if_pos h]
  · intro h
    by_contra hnot
    unfold confirmEnd at h
    rw [hperf] at h
    dsimp only at h
    rw [hb0] at h
    dsimp only at h
    rw [hslot] at h
    dsimp only at h
    rw [if_neg (not_ne_iff.mpr hauth), if_neg hnot] at h
    cases hping : latestFreshPing db perf.id now with
    | none =>
      rw [hping] at h
      simp at h
    | some ping =>
      rw [hping] at h
      dsimp only at h
      cases hgate : geoGate ping.lat ping.lng (objectCoords db slot.objectId).1
          (objectCoords db slot.objectId).2 with
      | none =>
        rw [hgate] at h
        simp at h
      | some dm =>
        rw [hgate] at h
        simp at h

/-- C7 witness: on `dbC7` (slot end 64 800 000), confirm-end at
end + 4 h 1 min fails "too late to confirm end"; at end + 3 h 59 min it
succeeds. -/
theorem confirm_end_window_witness :
    confirmEnd "sr1" "s1" "qr1" 79260000 dbC7 =
      (.error ⟨400, "too late to confirm end", none⟩, dbC7)
    ∧ (confirmEnd "sr1" "s1" "qr1" 79140000 dbC7).1 = .ok () :=
  ⟨(confirm_end_window "sr1" "s1" "qr1" 79260000 dbC7 uA rfl bA rfl slotA rfl rfl).mp
      (by decide),
   rfl⟩

/-! ### C8: freshness gate -/

lemma pickLater_ne_none (acc : Option GeoPing) (p : GeoPing) : pickLater acc p ≠ none := by
  cases acc with
  | none => simp [pickLater]
  | some q =>
    simp only [pickLater]
    split <;> simp

lemma foldl_pickLater_none (l : List GeoPing) (acc : Option GeoPing) :
    l.foldl pickLater acc = none ↔ l = [] ∧ acc = none := by
  induction l generalizing acc with
  | nil => simp
  | cons p rest ih =>
    simp only [List.foldl_cons, ih]
    simp [pickLater_ne_none acc p]

lemma foldl_pickLater_some (l : List GeoPing) (acc : Option GeoPing) (m : GeoPing)
    (h : l.foldl pickLater acc = some m) :
    (m ∈ l ∨ acc = some m) ∧ (∀ p ∈ l, p.createdAt ≤ m.createdAt) ∧
      (∀ q : GeoPing, acc = some q → q.createdAt ≤ m.createdAt) := by
  induction l generalizing acc with
  | nil =>
    simp only [List.foldl_nil] at h
    refine ⟨Or.inr h, by simp, ?_⟩
    intro q hq
    rw [h] at hq
    cases hq
    exact le_refl _
  | cons p rest ih =>
    simp only [List.foldl_cons] at h
    obtain ⟨hmem, hmax, hacc⟩ := ih (pickLater acc p) h
    have hstep : p.createdAt ≤ m.createdAt ∧
        ∀ q : GeoPing, acc = some q → q.createdAt ≤ m.createdAt := by
      cases acc with
      | none =>
        refine ⟨hacc p rfl, ?_⟩
        intro q hq
        cases hq
      | some q =>
        simp only [pickLater] at hacc
        by_cases hlt : q.createdAt < p.createdAt
        · rw [if_pos hlt] at hacc
          refine ⟨hacc p rfl, ?_⟩
          intro q' hq'
          cases hq'
          exact le_trans (le_of_lt hlt) (hacc p rfl)
        · rw [if_neg hlt] at hacc
          refine ⟨le_trans (not_lt.mp hlt) (hacc q rfl), ?_⟩
          intro q' hq'
          cases hq'
          exact hacc q rfl
    refine ⟨?_, ?_, hstep.2⟩
    · rcases hmem with hm | hm
      · exact Or.inl (List.mem_cons_of_mem p hm)
      · cases acc with
        | none =>
          simp only [pickLater] at hm
          cases hm
          exact Or.inl (List.mem_cons_self _ _)
        | some q =>
          simp only [pickLater] at hm
          by_cases hlt : q.createdAt < p.createdAt
          · rw [if_pos hlt] at hm
            cases hm
            exact Or.inl (List.mem_cons_self _ _)
          · rw [if_neg hlt] at hm
            exact Or.inr hm
    · intro p' hp'
      rcases List.mem_cons.mp hp' with hp' | hp'
      · rw [hp']
        exact hstep.1
      · exact hmax p' hp'

lemma freshPings_mem (db : DB) (u : String) (now : ℤ) (p : GeoPing) :
    p ∈ freshPings db u now ↔
      p ∈ db.pings ∧ p.userId = u ∧ now - PING_MAX_AGE_MS ≤ p.createdAt := by
  simp [freshPings, List.mem_filter, and_assoc]

lemma latestFreshPing_none_iff (db : DB) (u : String) (now : ℤ) :
    latestFreshPing db u now = none ↔
      ∀ p ∈ db.pings, p.userId = u → p.createdAt < now - PING_MAX_AGE_MS := by
  unfold latestFreshPing
  rw [foldl_pickLater_none]
  simp only [and_true, List.eq_nil_iff_forall_not_mem]
  constructor
  · intro h p hp hu
    by_contra hfresh
    exact h p ((freshPings_mem db u now p).mpr ⟨hp, hu, not_lt.mp hfresh⟩)
  · intro h p hp
    obtain ⟨h1, h2, h3⟩ := (freshPings_mem db u now p).mp hp
    exact absurd h3 (not_le.mpr (h p h1 h2))

lemma latestFreshPing_spec (db : DB) (u : String) (now : ℤ) (ping : GeoPing)
    (h : latestFreshPing db u now = some ping) :
    ping ∈ db.pings ∧ ping.userId = u ∧ now - PING_MAX_AGE_MS ≤ ping.createdAt ∧
      ∀ p ∈ db.pings, p.userId = u → now - PING_MAX_AGE_MS ≤ p.createdAt →
        p.createdAt ≤ ping.createdAt := by
  unfold latestFreshPing at h
  obtain ⟨hmem, hmax, -⟩ := foldl_pickLater_some _ _ _ h
  rcases hmem with hm | hm
  · obtain ⟨h1, h2, h3⟩ := (freshPings_mem db u now ping).mp hm
    refine ⟨h1, h2, h3, ?_⟩
    intro p hp hu hfresh
    exact hmax p ((freshPings_mem db u now p).mpr ⟨hp, hu, hfresh⟩)
  · cases hm

/-- State with a ping 121 s old at t = 36 000 000 (stale). -/
def dbC8a : DB := { dbA with pings := [⟨"u1", 0, 0, 35879000⟩] }
/-- State with a ping 119 s old at t = 36 000 000 (fresh). -/
def dbC8b : DB := { dbA with pings := [⟨"u1", 0, 0, 35881000⟩] }

/-- C8. With earlier gates passed, confirm-start fails with
400 "no fresh geo ping from performer" exactly when the performer has
no ping with `createdAt ≥ now − 2 minutes`; and any selected ping is a
fresh ping of the performer of maximal `createdAt`. -/
theorem confirm_start_freshness (sr slotId qr : String) (now : ℤ) (db : DB)
    (perf : User) (hperf : findUserByQrToken db qr = some perf)
    (b0 : Booking) (hb0 : db.bookings.find? (confirmStartPred slotId perf.id) = some b0)
    (slot : Slot) (hslot : findSlot db b0.slotId = some slot)
    (hauth : slot.createdById = sr)
    (htime : slot.startTime - 15 * 60 * 1000 ≤ now) :
    (confirmStart sr slotId qr now db =
        (.error ⟨400, "no fresh geo ping from performer", none⟩, db) ↔
      ∀ p ∈ db.pings, p.userId = perf.id → p.createdAt < now - PING_MAX_AGE_MS)
    ∧ (∀ ping : GeoPing, latestFreshPing db perf.id now = some ping →
        ping ∈ db.pings ∧ ping.userId = perf.id ∧ now - PING_MAX_AGE_MS ≤ ping.createdAt ∧
          ∀ p ∈ db.pings, p.userId = perf.id → now - PING_MAX_AGE_MS ≤ p.createdAt →
            p.createdAt ≤ ping.createdAt) := by
  have hnotlt : ¬(now < slot.startTime - 15 * 60 * 1000) := not_lt.mpr htime
  constructor
  · constructor
    · intro h
      rw [← latestFreshPing_none_iff]
      unfold confirmStart at h
      rw [hperf] at h
      dsimp only at h
      rw [hb0] at h
      dsimp only at h
      rw [hslot] at h
      dsimp only at h
      rw [if_neg (not_ne_iff.mpr hauth), if_neg hnotlt] at h
      cases hping : latestFreshPing db perf.id now with
      | none => rfl
      | some ping =>
        rw [hping] at h
        dsimp only at h
        cases hgate : geoGate ping.lat ping.lng (objectCoords db slot.objectId).1
            (objectCoords db slot.objectId).2 with
        | none =>
          rw [hgate] at h
          simp at h
        | some dm =>
          rw [hgate] at h
          simp at h
    · intro h
      have hnone : latestFreshPing db perf.id now = none :=
        (latestFreshPing_none_iff db perf.id now).mpr h
      unfold confirmStart
      rw [hperf]
      dsimp only
      rw [hb0]
      dsimp only
      rw [hslot]
      dsimp only
      rw [if_neg (not_ne_iff.mpr hauth), if_neg hnotlt, hnone]
  · intro ping hping
    exact latestFreshPing_spec db perf.id now ping hping

/-- C8 witness: a ping 121 s old is stale (confirm-start fails with
"no fresh geo ping from performer"); a ping 119 s old passes and the
call succeeds. -/
theorem confirm_start_freshness_witness :
    confirmStart "sr1" "s1" "qr1" 36000000 dbC8a =
      (.error ⟨400, "no fresh geo ping from performer", none⟩, dbC8a)
    ∧ (confirmStart "sr1" "s1" "qr1" 36000000 dbC8b).1 = .ok () :=
  ⟨(confirm_start_freshness "sr1" "s1" "qr1" 36000000 dbC8a uA rfl bA rfl slotA rfl rfl
      (by decide)).1.mpr (by decide),
   rfl⟩

/-! ### C3: the status transition relation -/

/-- The transitions the modelled operations can actually perform
(reflexivity covers untouched rows): `booked` may move to any of
`cancelled`, `checkin_requested`, `started` (confirm-start accepts
`booked` directly) or `ended` (confirm-end accepts `booked` directly);
`checkin_requested` to `started` or `ended`; `started` to `ended`;
`cancelled` and `ended` are terminal. -/
def allowedTransition (a b : BookingStatus) : Bool :=
  decide (a = b) ||
    (match a, b with
     | .booked, .cancelled => true
     | .booked, .checkin_requested => true
     | .booked, .started => true
     | .booked, .ended => true
     | .checkin_requested, .started => true
     | .checkin_requested, .ended => true
     | .started, .ended => true
     | _, _ => false)

/-- All booking rows of `db2` relate to those of `db` by an allowed
transition (per row id), and rows with fresh ids are `booked`. -/
def TransOk (db db2 : DB) : Prop :=
  (∀ b ∈ db.bookings, ∀ b2 ∈ db2.bookings, b.id = b2.id →
    allowedTransition b.status b2.status = true) ∧
  (∀ b2 ∈ db2.bookings, (∀ b ∈ db.bookings, b.id ≠ b2.id) →
    b2.status = BookingStatus.booked)

/-- Row-id sanity: ids are below the allocation counter and pairwise
distinct (as for database-generated primary keys). -/
def BookingIdsOk (db : DB) : Prop :=
  (∀ b ∈ db.bookings, b.id < db.nextBookingId) ∧
    db.bookings.Pairwise (fun a b => a.id ≠ b.id)

/-- One state transition of the modelled API: any of the six
booking-mutating operations, with arbitrary arguments. -/
inductive Step : DB → DB → Prop where
  | create (u s : String) (now : ℤ) (db : DB) : Step db (createBooking u s now db).2
  | createJs (u s : String) (now : ℤ) (db : DB) : Step db (createBookingJs u s now db).2
  | cancel (u s : String) (db : DB) : Step db (cancelBooking u s db).2
  | checkin (u s : String) (lat lng : ℝ) (now : ℤ) (db : DB) :
      Step db (slotStart u s lat lng now db).2
  | confirmS (sr s q : String) (now : ℤ) (db : DB) : Step db (confirmStart sr s q now db).2
  | confirmE (sr s q : String) (now : ℤ) (db : DB) : Step db (confirmEnd sr s q now db).2

lemma allowedTransition_refl (a : BookingStatus) : allowedTransition a a = true := by
  simp [allowedTransition]

lemma booking_id_inj (l : List Booking) (hpair : l.Pairwise (fun a b => a.id ≠ b.id)) :
    ∀ a ∈ l, ∀ b ∈ l, a.id = b.id → a = b := by
  intro a ha b hb heq
  by_contra hne
  have hsymm : Symmetric (fun a b : Booking => a.id ≠ b.id) := fun a b h => h.symm
  exact hpair.forall hsymm ha hb hne heq

lemma transOk_same (db db2 : DB)
    (hpair : db.bookings.Pairwise (fun a b => a.id ≠ b.id))
    (h : db2.bookings = db.bookings) : TransOk db db2 := by
  constructor
  · intro b hb b2 hb2 heq
    rw [h] at hb2
    rw [booking_id_inj db.bookings hpair b hb b2 hb2 heq]
    exact allowedTransition_refl _
  · intro b2 hb2 hnon
    rw [h] at hb2
    exact absurd rfl (hnon b2 hb2)

lemma transOk_append (db db2 : DB) (u s : String) (now : ℤ)
    (hlt : ∀ b ∈ db.bookings, b.id < db.nextBookingId)
    (hpair : db.bookings.Pairwise (fun a b => a.id ≠ b.id))
    (h : db2.bookings = db.bookings ++ [newBooking db.nextBookingId u s now]) :
    TransOk db db2 := by
  constructor
  · intro b hb b2 hb2 heq
    rw [h] at hb2
    rcases List.mem_append.mp hb2 with h2 | h2
    · rw [booking_id_inj db.bookings hpair b hb b2 h2 heq]
      exact allowedTransition_refl _
    · rw [List.mem_singleton.mp h2] at heq
      exact absurd heq (Nat.ne_of_lt (hlt b hb))
  · intro b2 hb2 hnon
    rw [h] at hb2
    rcases List.mem_append.mp hb2 with h2 | h2
    · exact absurd rfl (hnon b2 h2)
    · rw [List.mem_singleton.mp h2]
      rfl

lemma transOk_set (db db2 : DB)
    (hpair : db.bookings.Pairwise (fun a b => a.id ≠ b.id))
    (b0 : Booking) (hb0 : b0 ∈ db.bookings) (f : Booking → Booking)
    (st : BookingStatus)
    (hfid : ∀ x : Booking, (f x).id = x.id) (hfst : ∀ x : Booking, (f x).status = st)
    (hall : allowedTransition b0.status st = true)
    (h : db2.bookings = setBooking db.bookings b0.id f) : TransOk db db2 := by
  constructor
  · intro b hb b2 hb2 heq
    rw [h] at hb2
    obtain ⟨b3, hb3, hif⟩ := List.mem_map.mp hb2
    by_cases hc : b3.id = b0.id
    · rw [if_pos hc] at hif
      have hb3eq : b3 = b0 := booking_id_inj db.bookings hpair b3 hb3 b0 hb0 hc
      have hbeq : b = b3 := by
        refine booking_id_inj db.bookings hpair b hb b3 hb3 ?_
        rw [heq, ← hif, hfid]
      rw [← hif, hfst, hbeq, hb3eq]
      exact hall
    · rw [if_neg hc] at hif
      rw [booking_id_inj db.bookings hpair b hb b2 (hif ▸ hb3) heq]
      exact allowedTransition_refl _
  · intro b2 hb2 hnon
    rw [h] at hb2
    obtain ⟨b3, hb3, hif⟩ := List.mem_map.mp hb2
    refine absurd ?_ (hnon b3 hb3)
    by_cases hc : b3.id = b0.id
    · rw [if_pos hc] at hif
      rw [← hif, hfid]
    · rw [if_neg hc] at hif
      rw [hif]

lemma createBooking_snd_shape (u s : String) (now : ℤ) (db : DB) :
    (createBooking u s now db).2.bookings = db.bookings ∨
    (createBooking u s now db).2.bookings =
      db.bookings ++ [newBooking db.nextBookingId u s now] := by
  unfold createBooking
  split
  · left; rfl
  · split
    · left; rfl
    · right; rfl

lemma createBookingJs_snd_shape (u s : String) (now : ℤ) (db : DB) :
    (createBookingJs u s now db).2.bookings = db.bookings ∨
    (createBookingJs u s now db).2.bookings =
      db.bookings ++ [newBooking db.nextBookingId u s now] := by
  unfold createBookingJs
  split
  · left; rfl
  · split
    · left; rfl
    · right; rfl

lemma cancelBooking_snd_shape (u s : String) (db : DB) :
    (cancelBooking u s db).2.bookings = db.bookings ∨
    ∃ b0 ∈ db.bookings, b0.status = BookingStatus.booked ∧
      (cancelBooking u s db).2.bookings = setBooking db.bookings b0.id cancelRow := by
  unfold cancelBooking
  split
  · left; rfl
  next b0 hb0 =>
    right
    have hp := (alreadyBookedPred_eq_true u s b0).mp (List.find?_some hb0)
    exact ⟨b0, List.mem_of_find?_eq_some hb0, hp.2.2, rfl⟩

lemma slotStart_snd_shape (u s : String) (lat lng : ℝ) (now : ℤ) (db : DB) :
    (slotStart u s lat lng now db).2.bookings = db.bookings ∨
    ∃ b0 ∈ db.bookings, b0.status = BookingStatus.booked ∧
      (slotStart u s lat lng now db).2.bookings = setBooking db.bookings b0.id checkinRow := by
  unfold slotStart
  split
  · left; rfl
  next slot hslot =>
    split
    · left; rfl
    next b0 hb0 =>
      have hp := (slotStartPred_eq_true slot.id u b0).mp (List.find?_some hb0)
      split
      · left; rfl
      · split
        · left; rfl
        · right
          exact ⟨b0, List.mem_of_find?_eq_some hb0, hp.2.2, rfl⟩

lemma confirmStart_snd_shape (sr s q : String) (now : ℤ) (db : DB) :
    (confirmStart sr s q now db).2.bookings = db.bookings ∨
    ∃ b0 ∈ db.bookings,
      (b0.status = BookingStatus.booked ∨ b0.status = BookingStatus.checkin_requested) ∧
      ∃ pla plng : ℝ, (confirmStart sr s q now db).2.bookings =
        setBooking db.bookings b0.id (startRow now sr pla plng) := by
  unfold confirmStart
  split
  · left; rfl
  next perf hu =>
    split
    · left; rfl
    next b0 hb0 =>
      have hp := (confirmStartPred_eq_true s perf.id b0).mp (List.find?_some hb0)
      split
      · left; rfl
      next slot hslot =>
        split
        · left; rfl
        · split
          · left; rfl
          · split
            · left; rfl
            next ping hping =>
              split
              · left; rfl
              · right
                exact ⟨b0, List.mem_of_find?_eq_some hb0, hp.2.2.1, ping.lat, ping.lng, rfl⟩

lemma confirmEnd_snd_shape (sr s q : String) (now : ℤ) (db : DB) :
    (confirmEnd sr s q now db).2.bookings = db.bookings ∨
    ∃ b0 ∈ db.bookings,
      (b0.status = BookingStatus.started ∨ b0.status = BookingStatus.booked ∨
        b0.status = BookingStatus.checkin_requested) ∧
      ∃ pla plng : ℝ, (confirmEnd sr s q now db).2.bookings =
        setBooking db.bookings b0.id (endRow now sr pla plng) := by
  unfold confirmEnd
  split
  · left; rfl
  next perf hu =>
    split
    · left; rfl
    next b0 hb0 =>
      have hp := (confirmEndPred_eq_true s perf.id b0).mp (List.find?_some hb0)
      split
      · left; rfl
      next slot hslot =>
        split
        · left; rfl
        · split
          · left; rfl
          · split
            · left; rfl
            next ping hping =>
              split
              · left; rfl
              · right
                exact ⟨b0, List.mem_of_find?_eq_some hb0, hp.2.2.1, ping.lat, ping.lng, rfl⟩

/-- C3 (amended). Every status transition performed by a modelled
operation follows `none (absent) → booked → (cancelled |
checkin_requested | started | ended)`, `checkin_requested → (started |
ended)`, `started → ended`, with `cancelled` and `ended` terminal:
confirm-start may take `booked` directly to `started`, and confirm-end
may take `booked` or `checkin_requested` directly to `ended`, so a
booking in status `ended` need not have been `started`. -/
theorem booking_status_transitions (db db2 : DB)
    (hids : BookingIdsOk db) (hstep : Step db db2) : TransOk db db2 := by
  obtain ⟨hlt, hpair⟩ := hids
  cases hstep with
  | create u s now =>
    rcases createBooking_snd_shape u s now db with h | h
    · exact transOk_same _ _ hpair h
    · exact transOk_append _ _ u s now hlt hpair h
  | createJs u s now =>
    rcases createBookingJs_snd_shape u s now db with h | h
    · exact transOk_same _ _ hpair h
    · exact transOk_append _ _ u s now hlt hpair h
  | cancel u s =>
    rcases cancelBooking_snd_shape u s db with h | ⟨b0, hb0, hst, h⟩
    · exact transOk_same _ _ hpair h
    · refine transOk_set _ _ hpair b0 hb0 cancelRow BookingStatus.cancelled
        (fun x => rfl) (fun x => rfl) ?_ h
      rw [hst]
      rfl
  | checkin u s lat lng now =>
    rcases slotStart_snd_shape u s lat lng now db with h | ⟨b0, hb0, hst, h⟩
    · exact transOk_same _ _ hpair h
    · refine transOk_set _ _ hpair b0 hb0 checkinRow BookingStatus.checkin_requested
        (fun x => rfl) (fun x => rfl) ?_ h
      rw [hst]
      rfl
  | confirmS sr s q now =>
    rcases confirmStart_snd_shape sr s q now db with h | ⟨b0, hb0, hst, pla, plng, h⟩
    · exact transOk_same _ _ hpair h
    · refine transOk_set _ _ hpair b0 hb0 (startRow now sr pla plng) BookingStatus.started
        (fun x => rfl) (fun x => rfl) ?_ h
      rcases hst with h1 | h1 <;> rw [h1] <;> rfl
  | confirmE sr s q now =>
    rcases confirmEnd_snd_shape sr s q now db with h | ⟨b0, hb0, hst, pla, plng, h⟩
    · exact transOk_same _ _ hpair h
    · refine transOk_set _ _ hpair b0 hb0 (endRow now sr pla plng) BookingStatus.ended
        (fun x => rfl) (fun x => rfl) ?_ h
      rcases hst with h1 | h1 | h1 <;> rw [h1] <;> rfl

/-- C3 counterexample: on `dbC7` the booking is `booked` and a single
confirm-end call takes it directly to `ended` — it was never `started`,
contradicting the declared chain in which `ended` follows `started`. -/
theorem booking_status_transitions_counterexample :
    dbC7.bookings = [bA] ∧ bA.status = BookingStatus.booked ∧
    (confirmEnd "sr1" "s1" "qr1" 79140000 dbC7).1 = .ok () ∧
    (confirmEnd "sr1" "s1" "qr1" 79140000 dbC7).2.bookings = [endRow 79140000 "sr1" 0 0 bA] ∧
    (endRow 79140000 "sr1" 0 0 bA).status = BookingStatus.ended ∧
    (endRow 79140000 "sr1" 0 0 bA).id = bA.id :=
  ⟨rfl, rfl, rfl, rfl, rfl, rfl⟩

/-- C3 witness: a concrete cancel step on `dbA` satisfies the amended
transition relation. -/
theorem booking_status_transitions_witness : TransOk dbA (cancelBooking "u1" "s1" dbA).2 :=
  booking_status_transitions dbA _ ⟨by decide, by decide⟩ (Step.cancel "u1" "s1" dbA)

/-! ### C10: performer self check-in -/

/-- Every `checkin_requested` row of `db2` already existed (same id,
same status) in `db`. -/
def NoNewCheckin (db db2 : DB) : Prop :=
  ∀ b2 ∈ db2.bookings, b2.status = BookingStatus.checkin_requested →
    ∃ b ∈ db.bookings, b.id = b2.id ∧ b.status = BookingStatus.checkin_requested

/-- A transition by any modelled booking-mutating operation other than
POST /slots/:id/start. -/
inductive NonCheckinStep : DB → DB → Prop where
  | create (u s : String) (now : ℤ) (db : DB) : NonCheckinStep db (createBooking u s now db).2
  | createJs (u s : String) (now : ℤ) (db : DB) :
      NonCheckinStep db (createBookingJs u s now db).2
  | cancel (u s : String) (db : DB) : NonCheckinStep db (cancelBooking u s db).2
  | confirmS (sr s q : String) (now : ℤ) (db : DB) :
      NonCheckinStep db (confirmStart sr s q now db).2
  | confirmE (sr s q : String) (now : ℤ) (db : DB) :
      NonCheckinStep db (confirmEnd sr s q now db).2

lemma noNewCheckin_same (db db2 : DB) (h : db2.bookings = db.bookings) :
    NoNewCheckin db db2 := by
  intro b2 hb2 hst
  rw [h] at hb2
  exact ⟨b2, hb2, rfl, hst⟩

lemma noNewCheckin_append (db db2 : DB) (u s : String) (now : ℤ)
    (h : db2.bookings = db.bookings ++ [newBooking db.nextBookingId u s now]) :
    NoNewCheckin db db2 := by
  intro b2 hb2 hst
  rw [h] at hb2
  rcases List.mem_append.mp hb2 with h2 | h2
  · exact ⟨b2, h2, rfl, hst⟩
  · rw [List.mem_singleton.mp h2] at hst
    cases hst

lemma noNewCheckin_set (db db2 : DB) (bid : ℕ) (f : Booking → Booking)
    (st : BookingStatus)
    (hfst : ∀ x : Booking, (f x).status = st)
    (hne : st ≠ BookingStatus.checkin_requested)
    (h : db2.bookings = setBooking db.bookings bid f) :
    NoNewCheckin db db2 := by
  intro b2 hb2 hst
  rw [h] at hb2
  obtain ⟨b3, hb3, hif⟩ := List.mem_map.mp hb2
  by_cases hc : b3.id = bid
  · rw [if_pos hc] at hif
    rw [← hif, hfst] at hst
    exact absurd hst hne
  · rw [if_neg hc] at hif
    rw [← hif]
    exact ⟨b3, hb3, rfl, by rw [← hif] at hst; exact hst⟩

lemma nonCheckinStep_noNewCheckin (db db2 : DB) (h : NonCheckinStep db db2) :
    NoNewCheckin db db2 := by
  cases h with
  | create u s now =>
    rcases createBooking_snd_shape u s now db with h | h
    · exact noNewCheckin_same _ _ h
    · exact noNewCheckin_append _ _ u s now h
  | createJs u s now =>
    rcases createBookingJs_snd_shape u s now db with h | h
    · exact noNewCheckin_same _ _ h
    · exact noNewCheckin_append _ _ u s now h
  | cancel u s =>
    rcases cancelBooking_snd_shape u s db with h | ⟨b0, hb0, hst, h⟩
    · exact noNewCheckin_same _ _ h
    · exact noNewCheckin_set _ _ b0.id cancelRow BookingStatus.cancelled
        (fun x => rfl) (by simp) h
  | confirmS sr s q now =>
    rcases confirmStart_snd_shape sr s q now db with h | ⟨b0, hb0, hst, pla, plng, h⟩
    · exact noNewCheckin_same _ _ h
    · exact noNewCheckin_set _ _ b0.id (startRow now sr pla plng) BookingStatus.started
        (fun x => rfl) (by simp) h
  | confirmE sr s q now =>
    rcases confirmEnd_snd_shape sr s q now db with h | ⟨b0, hb0, hst, pla, plng, h⟩
    · exact noNewCheckin_same _ _ h
    · exact noNewCheckin_set _ _ b0.id (endRow now sr pla plng) BookingStatus.ended
        (fun x => rfl) (by simp) h

lemma slotStart_err_or_ok (u slotId : String) (lat lng : ℝ) (now : ℤ) (db : DB) :
    (slotStart u slotId lat lng now db).1 = .ok () ∨
      (slotStart u slotId lat lng now db).2 = db := by
  unfold slotStart
  split
  · right; rfl
  · split
    · right; rfl
    · split
      · right; rfl
      · split
        · right; rfl
        · left; rfl

/-- C10. POST /slots/:id/start: on any precondition failure (missing
slot, no `booked` booking of the caller, too early, too far) the state
is unchanged; when the caller holds a `booked` booking on the slot, the
time is at least `startTime − 15 min` and the submitted point passes
the geofence, it appends exactly one UserGeoPing with the submitted
coordinates and sets that booking's status to `checkin_requested`; and
no other modelled operation ever produces a `checkin_requested` row. -/
theorem slot_start_spec (u slotId : String) (lat lng : ℝ) (now : ℤ) (db : DB) :
    (∀ e : ApiError, (slotStart u slotId lat lng now db).1 = .error e →
      (slotStart u slotId lat lng now db).2 = db)
    ∧ (∀ slot : Slot, findSlot db slotId = some slot →
        ∀ b0 : Booking, db.bookings.find? (slotStartPred slot.id u) = some b0 →
        slot.startTime - 15 * 60 * 1000 ≤ now →
        geoGate lat lng (objectCoords db slot.objectId).1
          (objectCoords db slot.objectId).2 = none →
        slotStart u slotId lat lng now db =
          (.ok (), { db with
            pings := db.pings ++ [{ userId := u, lat := lat, lng := lng, createdAt := now }],
            bookings := setBooking db.bookings b0.id checkinRow }))
    ∧ ((slotStart u slotId lat lng now db).1 = .ok () →
        ∃ slot : Slot, findSlot db slotId = some slot ∧
        ∃ b0 ∈ db.bookings, b0.userId = u ∧ b0.slotId = slot.id ∧
          b0.status = BookingStatus.booked ∧
          slot.startTime - 15 * 60 * 1000 ≤ now ∧
          geoGate lat lng (objectCoords db slot.objectId).1
            (objectCoords db slot.objectId).2 = none ∧
          (slotStart u slotId lat lng now db).2 =
            { db with
              pings := db.pings ++ [{ userId := u, lat := lat, lng := lng, createdAt := now }],
              bookings := setBooking db.bookings b0.id checkinRow })
    ∧ (∀ db2 : DB, NonCheckinStep db db2 → NoNewCheckin db db2) := by
  refine ⟨?_, ?_, ?_, fun db2 h => nonCheckinStep_noNewCheckin db db2 h⟩
  · intro e h
    rcases slotStart_err_or_ok u slotId lat lng now db with hok | h2
    · rw [hok] at h
      cases h
    · exact h2
  · intro slot hslot b0 hb0 htime hgate
    unfold slotStart
    rw [hslot]
    dsimp only
    rw [hb0]
    dsimp only
    rw [if_neg (not_lt.mpr htime), hgate]
  · intro hok
    unfold slotStart at hok
    split at hok
    · cases hok
    next slot hslot =>
      split at hok
      · cases hok
      next b0 hb0 =>
        split at hok
        · cases hok
        next htime =>
          split at hok
          · cases hok
          next hgate =>
            have hp := (slotStartPred_eq_true slot.id u b0).mp (List.find?_some hb0)
            refine ⟨slot, hslot, b0, List.mem_of_find?_eq_some hb0, hp.2.1, hp.1,
              hp.2.2, not_lt.mp htime, hgate, ?_⟩
            unfold slotStart
            rw [hslot]
            dsimp only
            rw [hb0]
            dsimp only
            rw [if_neg htime, hgate]

/-- C10 witness: a successful self check-in on `dbA` (appending the
ping and requesting check-in), and an unchanged state on a failing
call. -/
theorem slot_start_spec_witness :
    slotStart "u1" "s1" 1 2 35500000 dbA =
      (.ok (), { dbA with
        pings := dbA.pings ++ [{ userId := "u1", lat := 1, lng := 2, createdAt := 35500000 }],
        bookings := setBooking dbA.bookings 0 checkinRow })
    ∧ (slotStart "u1" "nope" 1 2 0 dbA).2 = dbA :=
  ⟨(slot_start_spec "u1" "s1" 1 2 35500000 dbA).2.1 slotA rfl bA rfl (by decide) rfl,
   (slot_start_spec "u1" "nope" 1 2 0 dbA).1 ⟨404, "slot not found", none⟩ rfl⟩

/-! ### C9: haversine geofence -/

open Real in
lemma haversineMeters_self (la ln : ℝ) : haversineMeters la ln la ln = 0 := by
  unfold haversineMeters toRad
  simp

open Real in
lemma hav_concrete :
    haversineMeters 55.77 37.62 55.75 37.62 = 6371000 * π / 9000 := by
  unfold haversineMeters toRad
  dsimp only
  have e1 : ((55.75 - 55.77 : ℝ) * π / 180) / 2 = -(π / 18000) := by ring_nf
  have e2 : ((37.62 - 37.62 : ℝ) * π / 180) / 2 = 0 := by ring_nf
  rw [e1, e2]
  have hθ0 : (0 : ℝ) ≤ π / 18000 := by positivity
  have hθpi : π / 18000 ≤ π := by
    have := pi_pos
    linarith
  have hθhalf : π / 18000 ≤ π / 2 := by
    have := pi_pos
    linarith
  have hsin : (0 : ℝ) ≤ Real.sin (π / 18000) :=
    Real.sin_nonneg_of_nonneg_of_le_pi hθ0 hθpi
  rw [Real.sin_neg, Real.sin_zero, neg_sq]
  norm_num
  rw [Real.sqrt_sq hsin, Real.arcsin_sin (by linarith) hθhalf]
  ring

open Real in
lemma hav_concrete_bounds :
    (2223.5 : ℝ) ≤ 6371000 * π / 9000 ∧ (6371000 * π / 9000 : ℝ) < 2224.5 := by
  have h1 := Real.pi_gt_d6
  have h2 := Real.pi_lt_d6
  constructor <;> [linarith; linarith]

open Real in
lemma hav_concrete_round : round (6371000 * π / 9000 : ℝ) = 2224 := by
  obtain ⟨h1, h2⟩ := hav_concrete_bounds
  rw [round_eq]
  have hl : (2224 : ℤ) ≤ ⌊(6371000 * π / 9000 : ℝ) + 1 / 2⌋ := by
    apply Int.le_floor.mpr
    push_cast
    linarith
  have hr : ⌊(6371000 * π / 9000 : ℝ) + 1 / 2⌋ < 2225 := by
    apply Int.floor_lt.mpr
    push_cast
    linarith
  omega

open Real in
lemma hav_concrete_gt : (200 : ℝ) < haversineMeters 55.77 37.62 55.75 37.62 := by
  rw [hav_concrete]
  have := Real.pi_gt_d6
  linarith

lemma geoGate_self (la ln : ℝ) : geoGate la ln (some la) (some ln) = none := by
  simp only [geoGate, haversineMeters_self]
  rw [if_neg (by norm_num)]

lemma geoGate_concrete :
    geoGate 55.77 37.62 (some 55.75) (some 37.62) = some 2224 := by
  simp only [geoGate]
  rw [if_pos hav_concrete_gt, hav_concrete, hav_concrete_round]

/-- The "too far" outcome of confirm-start: with every earlier gate
passed and the object located at (ola, oln), the call fails with
400 "too far from object" and the rounded distance exactly when the
haversine distance from the fresh ping exceeds 200 m. -/
lemma confirmStart_too_far (sr slotId qr : String) (now : ℤ) (db : DB)
    (perf : User) (hperf : findUserByQrToken db qr = some perf)
    (b0 : Booking) (hb0 : db.bookings.find? (confirmStartPred slotId perf.id) = some b0)
    (slot : Slot) (hslot : findSlot db b0.slotId = some slot)
    (hauth : slot.createdById = sr)
    (htime : slot.startTime - 15 * 60 * 1000 ≤ now)
    (ping : GeoPing) (hping : latestFreshPing db perf.id now = some ping)
    (ola oln : ℝ) (hcoords : objectCoords db slot.objectId = (some ola, some oln)) :
    200 < haversineMeters ping.lat ping.lng ola oln ↔
      confirmStart sr slotId qr now db =
        (.error ⟨400, "too far from object",
          some (round (haversineMeters ping.lat ping.lng ola oln))⟩, db) := by
  have hnotlt : ¬(now < slot.startTime - 15 * 60 * 1000) := not_lt.mpr htime
  constructor
  · intro h
    unfold confirmStart
    rw [hperf]
    dsimp only
    rw [hb0]
    dsimp only
    rw [hslot]
    dsimp only
    rw [if_neg (not_ne_iff.mpr hauth), if_neg hnotlt, hping]
    dsimp only
    rw [hcoords]
    dsimp only
    simp only [geoGate]
    rw [if_pos h]
  · intro h
    by_contra hnot
    unfold confirmStart at h
    rw [hperf] at h
    dsimp only at h
    rw [hb0] at h
    dsimp only at h
    rw [hslot] at h
    dsimp only at h
    rw [if_neg (not_ne_iff.mpr hauth), if_neg hnotlt, hping] at h
    dsimp only at h
    rw [hcoords] at h
    dsimp only at h
    simp only [geoGate] at h
    rw [if_neg hnot] at h
    simp at h

/-- The "too far" outcome of confirm-end: with every earlier gate
passed and the object located at (ola, oln), the call fails with
400 "too far from object" and the rounded distance exactly when the
haversine distance from the fresh ping exceeds 200 m. -/
lemma confirmEnd_too_far (sr slotId qr : String) (now : ℤ) (db : DB)
    (perf : User) (hperf : findUserByQrToken db qr = some perf)
    (b0 : Booking) (hb0 : db.bookings.find? (confirmEndPred slotId perf.id) = some b0)
    (slot : Slot) (hslot : findSlot db b0.slotId = some slot)
    (hauth : slot.createdById = sr)
    (htime : now ≤ slot.endTime + 4 * 60 * 60 * 1000)
    (ping : GeoPing) (hping : latestFreshPing db perf.id now = some ping)
    (ola oln : ℝ) (hcoords : objectCoords db slot.objectId = (some ola, some oln)) :
    200 < haversineMeters ping.lat ping.lng ola oln ↔
      confirmEnd sr slotId qr now db =
        (.error ⟨400, "too far from object",
          some (round (haversineMeters ping.lat ping.lng ola oln))⟩, db) := by
  have hnotlt : ¬(slot.endTime + 4 * 60 * 60 * 1000 < now) := not_lt.mpr htime
  constructor
  · intro h
    unfold confirmEnd
    rw [hperf]
    dsimp only
    rw [hb0]
    dsimp only
    rw [hslot]
    dsimp only
    rw [if_neg (not_ne_iff.mpr hauth), if_neg hnotlt, hping]
    dsimp only
    rw [hcoords]
    dsimp only
    simp only [geoGate]
    rw [if_pos h]
  · intro h
    by_contra hnot
    unfold confirmEnd at h
    rw [hperf] at h
    dsimp only at h
    rw [hb0] at h
    dsimp only at h
    rw [hslot] at h
    dsimp only at h
    rw [if_neg (not_ne_iff.mpr hauth), if_neg hnotlt, hping] at h
    dsimp only at h
    rw [hcoords] at h
    dsimp only at h
    simp only [geoGate] at h
    rw [if_neg hnot] at h
    simp at h

/-- Object at (55.75, 37.62) for the geofence witness. -/
def objC9 : GeoObject := ⟨"o9", some 55.75, some 37.62⟩
/-- Slot on `objC9` for the geofence witness. -/
def slotC9 : Slot := ⟨"s1", "o9", 0, 36000000, 64800000, "sr1"⟩
/-- Fresh ping at (55.77, 37.62) for the geofence witness. -/
def pingC9 : GeoPing := ⟨"u1", 55.77, 37.62, 35990000⟩
/-- State for the geofence witness. -/
def dbC9 : DB := ⟨[uA, srA], [objC9], [slotC9], [bA], [pingC9], 1⟩

/-- C9. The geofence uses the haversine distance with Earth radius
6 371 000 m: a ping at the object's exact coordinates yields distance 0
and passes; with the object at (55.75, 37.62) and the ping at
(55.77, 37.62) the distance is 6371000·π/9000 ≈ 2223.9 m — within 5 m
of 2224, rounding to 2224 — and the gate rejects, returning the rounded
distance; in both confirm-start and confirm-end the rejection happens
exactly when the distance exceeds 200 m, with the rounded distance
reported. -/
theorem geofence_spec :
    (∀ la ln : ℝ, haversineMeters la ln la ln = 0)
    ∧ (∀ la ln : ℝ, geoGate la ln (some la) (some ln) = none)
    ∧ haversineMeters 55.77 37.62 55.75 37.62 = 6371000 * Real.pi / 9000
    ∧ (200 : ℝ) < haversineMeters 55.77 37.62 55.75 37.62
    ∧ |haversineMeters 55.77 37.62 55.75 37.62 - 2224| ≤ 5
    ∧ round (haversineMeters 55.77 37.62 55.75 37.62) = 2224
    ∧ geoGate 55.77 37.62 (some 55.75) (some 37.62) = some 2224
    ∧ (∀ (sr slotId qr : String) (now : ℤ) (db : DB) (perf : User) (b0 : Booking)
        (slot : Slot) (ping : GeoPing) (ola oln : ℝ),
        findUserByQrToken db qr = some perf →
        db.bookings.find? (confirmStartPred slotId perf.id) = some b0 →
        findSlot db b0.slotId = some slot →
        slot.createdById = sr →
        slot.startTime - 15 * 60 * 1000 ≤ now →
        latestFreshPing db perf.id now = some ping →
        objectCoords db slot.objectId = (some ola, some oln) →
        (200 < haversineMeters ping.lat ping.lng ola oln ↔
          confirmStart sr slotId qr now db =
            (.error ⟨400, "too far from object",
              some (round (haversineMeters ping.lat ping.lng ola oln))⟩, db)))
    ∧ (∀ (sr slotId qr : String) (now : ℤ) (db : DB) (perf : User) (b0 : Booking)
        (slot : Slot) (ping : GeoPing) (ola oln : ℝ),
        findUserByQrToken db qr = some perf →
        db.bookings.find? (confirmEndPred slotId perf.id) = some b0 →
        findSlot db b0.slotId = some slot →
        slot.createdById = sr →
        now ≤ slot.endTime + 4 * 60 * 60 * 1000 →
        latestFreshPing db perf.id now = some ping →
        objectCoords db slot.objectId = (some ola, some oln) →
        (200 < haversineMeters ping.lat ping.lng ola oln ↔
          confirmEnd sr slotId qr now db =
            (.error ⟨400, "too far from object",
              some (round (haversineMeters ping.lat ping.lng ola oln))⟩, db))) := by
  refine ⟨haversineMeters_self, geoGate_self, hav_concrete, hav_concrete_gt, ?_, ?_,
    geoGate_concrete, ?_, ?_⟩
  · rw [hav_concrete]
    obtain ⟨h1, h2⟩ := hav_concrete_bounds
    rw [abs_le]
    constructor <;> [linarith; linarith]
  · rw [hav_concrete]
    exact hav_concrete_round
  · intro sr slotId qr now db perf b0 slot ping ola oln hperf hb0 hslot hauth htime hping hcoords
    exact confirmStart_too_far sr slotId qr now db perf hperf b0 hb0 slot hslot hauth htime
      ping hping ola oln hcoords
  · intro sr slotId qr now db perf b0 slot ping ola oln hperf hb0 hslot hauth htime hping hcoords
    exact confirmEnd_too_far sr slotId qr now db perf hperf b0 hb0 slot hslot hauth htime
      ping hping ola oln hcoords

/-- C9 witness: on `dbC9`, both confirm-start and confirm-end fail with
"too far from object" and a reported distance of 2224 m. -/
theorem geofence_spec_witness :
    confirmStart "sr1" "s1" "qr1" 36000000 dbC9 =
      (.error ⟨400, "too far from object", some 2224⟩, dbC9)
    ∧ confirmEnd "sr1" "s1" "qr1" 36000000 dbC9 =
        (.error ⟨400, "too far from object", some 2224⟩, dbC9) := by
  have t := geofence_spec
  have hgt : (200 : ℝ) < haversineMeters pingC9.lat pingC9.lng 55.75 37.62 := t.2.2.2.1
  have hround : round (haversineMeters pingC9.lat pingC9.lng 55.75 37.62) = 2224 :=
    t.2.2.2.2.2.1
  constructor
  · have hiff := t.2.2.2.2.2.2.2.1 "sr1" "s1" "qr1" 36000000 dbC9 uA bA slotC9 pingC9
      55.75 37.62 rfl rfl rfl rfl (by decide) rfl rfl
    have h := hiff.mp hgt
    rw [hround] at h
    exact h
  · have hiff := t.2.2.2.2.2.2.2.2 "sr1" "s1" "qr1" 36000000 dbC9 uA bA slotC9 pingC9
      55.75 37.62 rfl rfl rfl rfl (by decide) rfl rfl
    have h := hiff.mp hgt
    rw [hround] at h
    exact h
